import Mathlib

/-!
Verification development for the DaisyBard loop buffer
(src/loopbuffer.h, template class LoopBuffer<T, max_size>).

Shallow embedding conventions:
* the sample type T is read as exact rationals ℚ;
* max_size (the fixed capacity) is the parameter C;
* size_t fields are ℕ; the target (Daisy, 32-bit ARM) has 32-bit size_t,
  so conversions of signed expressions to size_t go through usize,
  which reduces modulo 2^32;
* static_cast<int32_t>(float) is truncation toward zero (truncQ);
* floor on float values is the mathematical floor on ℚ;
* the guarded Splice overload is modelled as an Option-valued function:
  an out-of-bounds array access (undefined behavior in C++) yields none.
-/

namespace DaisyBard

/-- Modulus of the target machine's size_t (32-bit). -/
def wordMod : ℕ := 2 ^ 32

/-- Value obtained by converting the signed integer z to size_t. -/
def usize (z : ℤ) : ℕ := (z % (wordMod : ℤ)).toNat

/-- C truncation toward zero, the semantics of static_cast<int32_t> on a
float value (defined when the value fits in int32). -/
def truncQ (q : ℚ) : ℤ := if 0 ≤ q then ⌊q⌋ else -⌊-q⌋

/-- Pointwise array store: upd f j v is f with slot j overwritten by v. -/
def upd (f : ℕ → ℚ) (j : ℕ) (v : ℚ) : ℕ → ℚ := fun i => if i = j then v else f i

/-- State of LoopBuffer<T, max_size>: fields frac_, write_ptr_, read_ptr_,
length_ and the backing array line_ (modelled as a total function; only
slots below C correspond to real storage). -/
structure LoopBuffer (C : ℕ) where
  frac : ℚ
  write_ptr : ℕ
  read_ptr : ℕ
  length : ℕ
  line : ℕ → ℚ

variable {C : ℕ}

/-- Reset(): write_ptr_ = 0, read_ptr_ = 0, length_ = 1, frac_ = 0. -/
def Reset (st : LoopBuffer C) : LoopBuffer C :=
  { st with write_ptr := 0, read_ptr := 0, length := 1, frac := 0 }

/-- Init(): zeroes line_[0..max_size) then calls Reset(). -/
def Init (st : LoopBuffer C) : LoopBuffer C :=
  Reset { st with line := fun i => if i < C then 0 else st.line i }

/-- SetLength(size_t length): frac_ = 0; length_ = length < max_size ? length : max_size. -/
def SetLength (st : LoopBuffer C) (length : ℕ) : LoopBuffer C :=
  { st with frac := 0, length := if length < C then length else C }

/-- Setlength(float length): int_length = (int32_t)length (truncation),
frac_ = length - int_length, length_ = (size_t)int_length < max_size
? int_length : max_size - 1 (the assignment converts int_length to size_t). -/
def Setlength (st : LoopBuffer C) (length : ℚ) : LoopBuffer C :=
  { st with
    frac := length - ((truncQ length : ℤ) : ℚ),
    length := if usize (truncQ length) < C then usize (truncQ length) else C - 1 }

/-- GetLength(): (float)length_ + frac_. -/
def GetLength (st : LoopBuffer C) : ℚ := (st.length : ℚ) + st.frac

/-- SetReadPosition(size_t position): read_ptr_ = position >= length_
? position : length_ - 1 (size_t subtraction); the second source line
(read_ptr_ < 0 ? 0 : read_ptr_) is a no-op on an unsigned size_t. -/
def SetReadPosition (st : LoopBuffer C) (position : ℕ) : LoopBuffer C :=
  { st with read_ptr := if position ≥ st.length then position else usize ((st.length : ℤ) - 1) }

/-- GetReadPosition(): returns read_ptr_. -/
def GetReadPosition (st : LoopBuffer C) : ℕ := st.read_ptr

/-- GetWritePosition(): returns write_ptr_. -/
def GetWritePosition (st : LoopBuffer C) : ℕ := st.write_ptr

/-- Write(sample): line_[write_ptr_] = sample; write_ptr_ = (write_ptr_ + 1)
% max_size; if (write_ptr_ >= length_) length_ = write_ptr_ + 1. -/
def Write (st : LoopBuffer C) (sample : ℚ) : LoopBuffer C :=
  let wp := (st.write_ptr + 1) % C
  { st with
    line := upd st.line st.write_ptr sample,
    write_ptr := wp,
    length := if wp ≥ st.length then wp + 1 else st.length }

/-- Read(): a = line_[read_ptr_ % length_]; read_ptr_ = (read_ptr_ + 1)
% length_; returns a. -/
def Read (st : LoopBuffer C) : LoopBuffer C × ℚ :=
  let a := st.line (st.read_ptr % st.length)
  ({ st with read_ptr := (st.read_ptr + 1) % st.length }, a)

/-- ReadOnce(): a = 0; if (read_ptr_ < length_) a = line_[read_ptr_ % length_];
read_ptr_ = read_ptr_ < (length_ - 1) ? read_ptr_ + 1 : read_ptr_ (the bound
length_ - 1 is computed in size_t). -/
def ReadOnce (st : LoopBuffer C) : LoopBuffer C × ℚ :=
  let a : ℚ := if st.read_ptr < st.length then st.line (st.read_ptr % st.length) else 0
  ({ st with
      read_ptr :=
        if st.read_ptr < usize ((st.length : ℤ) - 1) then st.read_ptr + 1 else st.read_ptr },
    a)

/-- ReadSpeed(float speed): read_ptr_ = (read_ptr_ + (int)floor(speed + frac_))
% length_ — the int summand is converted to size_t, wrapping modulo 2^32;
the following source line (if read_ptr_ < 0, read_ptr_ = length_ - 1) is dead
code on an unsigned size_t and is omitted; frac_ = speed + frac_ -
(int32_t)(speed + frac_); returns line_[read_ptr_ % length_] +
(line_[(read_ptr_ + 1) % length_] - line_[read_ptr_ % length_]) * frac_. -/
def ReadSpeed (st : LoopBuffer C) (speed : ℚ) : LoopBuffer C × ℚ :=
  let rp : ℕ := usize ((st.read_ptr : ℤ) + ⌊speed + st.frac⌋) % st.length
  let fr : ℚ := (speed + st.frac) - ((truncQ (speed + st.frac) : ℤ) : ℚ)
  let a := st.line (rp % st.length)
  let b := st.line ((rp + 1) % st.length)
  ({ st with read_ptr := rp, frac := fr }, a + (b - a) * fr)

/-- Guard of Splice(int fadeLength, int startPoint, int endPoint):
(2*fadeLength < (int)length_) && (startPoint >= 0) && (endPoint < (int)length_). -/
def spliceGuard (length : ℕ) (fadeLength startPoint endPoint : ℤ) : Prop :=
  2 * fadeLength < (length : ℤ) ∧ 0 ≤ startPoint ∧ endPoint < (length : ℤ)

instance spliceGuardDecidable (length : ℕ) (fadeLength startPoint endPoint : ℤ) :
    Decidable (spliceGuard length fadeLength startPoint endPoint) :=
  inferInstanceAs
    (Decidable (2 * fadeLength < (length : ℤ) ∧ 0 ≤ startPoint ∧ endPoint < (length : ℤ)))

/-- All array indices the guarded Splice body accesses, in source order:
startPoint + i and endPoint - i for i in [0, fadeLength), then
endPoint..length_-1 for the zeroing loop. -/
def spliceIdxs (length : ℕ) (fadeLength startPoint endPoint : ℤ) : List ℤ :=
  ((List.range fadeLength.toNat).map fun i : ℕ => startPoint + (i : ℤ)) ++
    ((List.range fadeLength.toNat).map fun i : ℕ => endPoint - (i : ℤ)) ++
    ((List.range ((length : ℤ) - endPoint).toNat).map fun i : ℕ => endPoint + (i : ℤ))

/-- Fade loop of the guarded Splice: for i in [0, fadeLength),
line_[startPoint + i] *= i/fadeLength; line_[endPoint - i] *= i/fadeLength. -/
def spliceFade (line : ℕ → ℚ) (fadeLength startPoint endPoint : ℤ) : ℕ → ℚ :=
  (List.range fadeLength.toNat).foldl
    (fun acc (i : ℕ) =>
      let r : ℚ := (i : ℚ) / (fadeLength : ℚ)
      let acc1 := upd acc (startPoint + (i : ℤ)).toNat (acc (startPoint + (i : ℤ)).toNat * r)
      upd acc1 (endPoint - (i : ℤ)).toNat (acc1 (endPoint - (i : ℤ)).toNat * r))
    line

/-- Zeroing loop of the guarded Splice: for i from endPoint to length_-1,
line_[i] = 0. -/
def spliceZero (line : ℕ → ℚ) (length : ℕ) (endPoint : ℤ) : ℕ → ℚ :=
  (List.range ((length : ℤ) - endPoint).toNat).foldl
    (fun acc (i : ℕ) => upd acc (endPoint + (i : ℤ)).toNat 0)
    line

/-- Splice(int fadeLength, int startPoint, int endPoint): if the guard fails
the body is skipped (the state is returned unchanged); if the guard passes,
the body runs; an access outside [0, max_size) is undefined behavior,
modelled as none. -/
def Splice (st : LoopBuffer C) (fadeLength startPoint endPoint : ℤ) :
    Option (LoopBuffer C) :=
  if spliceGuard st.length fadeLength startPoint endPoint then
    if (spliceIdxs st.length fadeLength startPoint endPoint).all
        (fun z => decide (0 ≤ z ∧ z < (C : ℤ))) then
      some { st with
              line := spliceZero (spliceFade st.line fadeLength startPoint endPoint)
                        st.length endPoint }
    else
      none
  else
    some st

/-- n successive Write calls, feeding samples s 0, s 1, ..., s (n-1). -/
def writeN (st : LoopBuffer C) (s : ℕ → ℚ) : ℕ → LoopBuffer C
  | 0 => st
  | n + 1 => Write (writeN st s n) (s n)

/-- State after n plain Read() calls. -/
def readState (st : LoopBuffer C) : ℕ → LoopBuffer C
  | 0 => st
  | n + 1 => (Read (readState st n)).1

/-- Sample returned by the (n+1)-th plain Read() call. -/
def readOut (st : LoopBuffer C) (n : ℕ) : ℚ := (Read (readState st n)).2

/-- State after n ReadOnce() calls. -/
def readOnceState (st : LoopBuffer C) : ℕ → LoopBuffer C
  | 0 => st
  | n + 1 => (ReadOnce (readOnceState st n)).1

/-- Sample returned by the (n+1)-th ReadOnce() call. -/
def readOnceOut (st : LoopBuffer C) (n : ℕ) : ℚ := (ReadOnce (readOnceState st n)).2

/-- State after n ReadSpeed(speed) calls. -/
def readSpeedState (st : LoopBuffer C) (speed : ℚ) : ℕ → LoopBuffer C
  | 0 => st
  | n + 1 => (ReadSpeed (readSpeedState st speed n) speed).1

/-- Sample returned by the (n+1)-th ReadSpeed(speed) call. -/
def readSpeedOut (st : LoopBuffer C) (speed : ℚ) (n : ℕ) : ℚ :=
  (ReadSpeed (readSpeedState st speed n) speed).2

/-- An arbitrary pre-Init state (all fields zero), used to build concrete
initialized buffers. -/
def blankLB (C : ℕ) : LoopBuffer C := ⟨0, 0, 0, 0, fun _ => 0⟩

/-- A freshly constructed and Init()-ed buffer of capacity C. -/
def initLB (C : ℕ) : LoopBuffer C := Init (blankLB C)

/-- Sample stream 10, 20, 30, 40, 50, ... fed to Write in traces. -/
def samples7 : ℕ → ℚ := fun k => 10 * ((k : ℚ) + 1)

/-- Concrete buffer: capacity 2, samples 5 and 7 recorded, length 2,
read cursor at 0. -/
def bufA : LoopBuffer 2 := ⟨0, 0, 0, 2, fun i => if i = 0 then 5 else 7⟩

/-- Concrete buffer: capacity 2, samples 1 and 2 recorded, length 2,
read cursor at 0, frac 0. -/
def bufB : LoopBuffer 2 := ⟨0, 0, 0, 2, fun i => if i = 0 then 1 else 2⟩

/-- Concrete buffer: capacity 4, length 3, cursors at 0, silent storage. -/
def bufS : LoopBuffer 4 := ⟨0, 0, 0, 3, fun _ => 0⟩

/-- Concrete buffer: capacity 4, length 3, cursors at 0, frac 0. -/
def bufV : LoopBuffer 4 := ⟨0, 0, 0, 3, fun _ => 0⟩

/-- Concrete buffer: capacity 8, length 5, used to exercise the guarded
Splice inside bounds. -/
def bufW : LoopBuffer 8 := ⟨0, 0, 0, 5, fun _ => 0⟩

/-!  Helper lemmas. -/

lemma usize_eq_of_nonneg (z : ℤ) (h0 : 0 ≤ z) (h1 : z < 2 ^ 32) : usize z = z.toNat := by
  unfold usize wordMod
  omega

lemma Read_fst_length (st : LoopBuffer C) : (Read st).1.length = st.length := rfl

lemma Read_fst_line (st : LoopBuffer C) : (Read st).1.line = st.line := rfl

lemma Read_fst_frac (st : LoopBuffer C) : (Read st).1.frac = st.frac := rfl

lemma ReadOnce_fst_length (st : LoopBuffer C) : (ReadOnce st).1.length = st.length := rfl

lemma ReadOnce_fst_line (st : LoopBuffer C) : (ReadOnce st).1.line = st.line := rfl

/-!  Claim theorems. -/

/-- Claim C7: with capacity 4, writing 10, 20, 30, 40, 50 from Init leaves
length 4, storage [50, 20, 30, 40] and write cursor 1; the length starts at
1 after Init, grows to 2, 3, 4 over the first three writes, and stays 4 on
the fourth and fifth writes while the fifth overwrites index 0. -/
theorem claim7_write_wrap_saturation :
    (initLB 4).length = 1 ∧
    (writeN (initLB 4) samples7 1).length = 2 ∧
    (writeN (initLB 4) samples7 2).length = 3 ∧
    (writeN (initLB 4) samples7 3).length = 4 ∧
    (writeN (initLB 4) samples7 4).length = 4 ∧
    (writeN (initLB 4) samples7 5).length = 4 ∧
    (writeN (initLB 4) samples7 5).write_ptr = 1 ∧
    (writeN (initLB 4) samples7 5).line 0 = 50 ∧
    (writeN (initLB 4) samples7 5).line 1 = 20 ∧
    (writeN (initLB 4) samples7 5).line 2 = 30 ∧
    (writeN (initLB 4) samples7 5).line 3 = 40 := by
  norm_num [writeN, Write, initLB, blankLB, Init, Reset, upd, samples7]

/-- Claim C8: whenever a precondition of the guarded Splice fails
(2*fadeLength ≥ length, or startPoint < 0, or endPoint ≥ length), the call
returns the buffer state exactly unchanged (storage included). -/
theorem claim8_splice_silent_noop (C : ℕ) (st : LoopBuffer C)
    (fadeLength startPoint endPoint : ℤ)
    (h : (st.length : ℤ) ≤ 2 * fadeLength ∨ startPoint < 0 ∨
      (st.length : ℤ) ≤ endPoint) :
    Splice st fadeLength startPoint endPoint = some st := by
  have hg : ¬ spliceGuard st.length fadeLength startPoint endPoint := by
    rintro ⟨h1, h2, h3⟩
    rcases h with h | h | h <;> omega
  unfold Splice
  rw [if_neg hg]

/-- Witness for claim C8 at capacity 4: the Init length is 1 and
2 * 5 ≥ 1, so Splice(5, 0, 0) leaves the buffer unchanged. -/
theorem claim8_witness :
    ((((initLB 4).length : ℤ) ≤ 2 * 5 ∨ (0 : ℤ) < 0 ∨ (((initLB 4).length : ℤ) ≤ 0)) ∧
      Splice (initLB 4) 5 0 0 = some (initLB 4)) :=
  ⟨Or.inl (by norm_num [initLB, blankLB, Init, Reset]),
    claim8_splice_silent_noop 4 (initLB 4) 5 0 0
      (Or.inl (by norm_num [initLB, blankLB, Init, Reset]))⟩

/-- Claim C9: SetReadPosition(position) assigns read_ptr = position exactly
when position ≥ length, and assigns read_ptr = length - 1 when
position < length (the literal, apparently inverted clamp); length ≤ 2^32
records that length_ fits in the 32-bit size_t. -/
theorem claim9_set_read_position (C : ℕ) (st : LoopBuffer C) (position : ℕ)
    (h32 : st.length ≤ 2 ^ 32) :
    (st.length ≤ position → (SetReadPosition st position).read_ptr = position) ∧
    (position < st.length → (SetReadPosition st position).read_ptr = st.length - 1) := by
  constructor
  · intro h
    show (if position ≥ st.length then position else usize ((st.length : ℤ) - 1)) = position
    rw [if_pos h]
  · intro h
    show (if position ≥ st.length then position else usize ((st.length : ℤ) - 1)) = st.length - 1
    rw [if_neg (by omega)]
    unfold usize wordMod
    omega

/-- Witness for claim C9: on bufA (length 2), SetReadPosition(5) sets the
cursor to 5 and SetReadPosition(0) would set it to 1. -/
theorem claim9_witness :
    (bufA.length ≤ 2 ^ 32) ∧
    ((bufA.length ≤ 0 → (SetReadPosition bufA 0).read_ptr = 0) ∧
      (0 < bufA.length → (SetReadPosition bufA 0).read_ptr = bufA.length - 1)) :=
  ⟨by norm_num [bufA], claim9_set_read_position 2 bufA 0 (by norm_num [bufA])⟩

/-- Claim C2 (counterexample): the invariant 1 ≤ length fails in a reachable
state: on a freshly Init-ed buffer of capacity 4, SetLength(0) sets
length_ = 0. -/
theorem claim2_counterexample : ¬ (1 ≤ (SetLength (initLB 4) 0).length) := by
  norm_num [SetLength, initLB, blankLB, Init, Reset]

/-- Claim C2 (amended): length ≤ C is preserved by every operation;
1 ≤ length is established by Init/Reset and preserved by Write; but
SetLength(n) yields 1 ≤ length exactly when n ≥ 1 (SetLength(0) sets
length = 0), and, for C ≥ 2 with C and the truncated integer part of x in
the 32-bit int/size_t range, Setlength(x) yields 1 ≤ length exactly when
trunc(x) ≠ 0: any x in (-1, 1) sets length = 0, while negative and ≥ C
integer parts land on the cap C - 1 ≥ 1. -/
theorem claim2_amended (C : ℕ) (st : LoopBuffer C) (sample : ℚ) (n : ℕ) (x : ℚ)
    (hC : 0 < C) (hC31 : C ≤ 2 ^ 31)
    (hx1 : -(2 ^ 31) ≤ truncQ x) (hx2 : truncQ x < 2 ^ 31) :
    (1 ≤ (Init st).length ∧ (Init st).length ≤ C) ∧
    (1 ≤ (Reset st).length ∧ (Reset st).length ≤ C) ∧
    (1 ≤ st.length → st.length ≤ C →
      1 ≤ (Write st sample).length ∧ (Write st sample).length ≤ C) ∧
    ((SetLength st n).length ≤ C ∧ (1 ≤ (SetLength st n).length ↔ 1 ≤ n)) ∧
    ((Setlength st x).length ≤ C ∧
      (2 ≤ C → (1 ≤ (Setlength st x).length ↔ truncQ x ≠ 0))) := by
  have hwp : (st.write_ptr + 1) % C < C := Nat.mod_lt _ hC
  refine ⟨⟨le_refl 1, hC⟩, ⟨le_refl 1, hC⟩, ?_, ?_, ?_⟩
  · intro h1 h2
    show 1 ≤ (if (st.write_ptr + 1) % C ≥ st.length then (st.write_ptr + 1) % C + 1
        else st.length) ∧
      (if (st.write_ptr + 1) % C ≥ st.length then (st.write_ptr + 1) % C + 1
        else st.length) ≤ C
    split <;> omega
  · show (if n < C then n else C) ≤ C ∧ (1 ≤ (if n < C then n else C) ↔ 1 ≤ n)
    split <;> omega
  · show (if usize (truncQ x) < C then usize (truncQ x) else C - 1) ≤ C ∧
      (2 ≤ C → (1 ≤ (if usize (truncQ x) < C then usize (truncQ x) else C - 1) ↔
        truncQ x ≠ 0))
    unfold usize wordMod
    constructor
    · split <;> omega
    · intro hC2
      split <;> omega

/-- Witness for claim C2 (amended) at capacity 4, n = 2, x = 5/2. -/
theorem claim2_witness :
    (0 < 4 ∧ 4 ≤ 2 ^ 31 ∧ -(2 ^ 31) ≤ truncQ (5/2 : ℚ) ∧ truncQ (5/2 : ℚ) < 2 ^ 31) ∧
    ((1 ≤ (Init (blankLB 4)).length ∧ (Init (blankLB 4)).length ≤ 4) ∧
      (1 ≤ (Reset (blankLB 4)).length ∧ (Reset (blankLB 4)).length ≤ 4) ∧
      (1 ≤ (blankLB 4).length → (blankLB 4).length ≤ 4 →
        1 ≤ (Write (blankLB 4) 3).length ∧ (Write (blankLB 4) 3).length ≤ 4) ∧
      ((SetLength (blankLB 4) 2).length ≤ 4 ∧
        (1 ≤ (SetLength (blankLB 4) 2).length ↔ 1 ≤ 2)) ∧
      ((Setlength (blankLB 4) (5/2 : ℚ)).length ≤ 4 ∧
        (2 ≤ 4 → (1 ≤ (Setlength (blankLB 4) (5/2 : ℚ)).length ↔ truncQ (5/2 : ℚ) ≠ 0)))) := by
  have h52 : ⌊(5/2 : ℚ)⌋ = 2 := by
    rw [Int.floor_eq_iff]
    norm_num
  have ht : truncQ (5/2 : ℚ) = 2 := by
    unfold truncQ
    rw [if_pos (by norm_num), h52]
  exact ⟨⟨by decide, by decide, by rw [ht]; decide, by rw [ht]; decide⟩,
    claim2_amended 4 (blankLB 4) 3 2 (5/2) (by decide) (by decide)
      (by rw [ht]; decide) (by rw [ht]; decide)⟩

lemma writeN_init_spec (C : ℕ) (s : ℕ → ℚ) (k : ℕ) (hk : k < C) :
    (writeN (initLB C) s k).write_ptr = k ∧
    (writeN (initLB C) s k).read_ptr = 0 ∧
    (writeN (initLB C) s k).frac = 0 ∧
    (writeN (initLB C) s k).length = k + 1 ∧
    (∀ i, i < k → (writeN (initLB C) s k).line i = s i) := by
  induction k with
  | zero =>
    refine ⟨rfl, rfl, rfl, rfl, ?_⟩
    intro i hi
    omega
  | succ k ih =>
    obtain ⟨hwp, hrp, hfr, hlen, hline⟩ := ih (by omega)
    have hmod : (k + 1) % C = k + 1 := Nat.mod_eq_of_lt hk
    refine ⟨?_, hrp, hfr, ?_, ?_⟩
    · show ((writeN (initLB C) s k).write_ptr + 1) % C = k + 1
      rw [hwp, hmod]
    · show (if ((writeN (initLB C) s k).write_ptr + 1) % C ≥ (writeN (initLB C) s k).length
          then ((writeN (initLB C) s k).write_ptr + 1) % C + 1
          else (writeN (initLB C) s k).length) = k + 1 + 1
      rw [hwp, hmod, hlen, if_pos (le_refl (k + 1))]
    · intro i hi
      show upd (writeN (initLB C) s k).line (writeN (initLB C) s k).write_ptr (s k) i = s i
      rw [hwp]
      unfold upd
      rcases Nat.lt_or_ge i k with h | h
      · rw [if_neg (by omega)]
        exact hline i h
      · have : i = k := by omega
        rw [if_pos this, this]

lemma readState_spec (C : ℕ) (st : LoopBuffer C) (N : ℕ)
    (hrp : st.read_ptr = 0) (hlen : st.length = N + 1) (k : ℕ) (hk : k ≤ N) :
    (readState st k).read_ptr = k ∧ (readState st k).length = st.length ∧
    (readState st k).line = st.line := by
  induction k with
  | zero => exact ⟨hrp, rfl, rfl⟩
  | succ k ih =>
    obtain ⟨h1, h2, h3⟩ := ih (by omega)
    refine ⟨?_, h2, h3⟩
    show ((readState st k).read_ptr + 1) % (readState st k).length = k + 1
    rw [h1, h2, hlen]
    exact Nat.mod_eq_of_lt (by omega)

/-- Claim C3 (counterexample): with capacity 4, after Init and N = 1 write,
GetLength() returns 2, not N = 1 (Write grows length_ to write_ptr_ + 1). -/
theorem claim3_counterexample : GetLength (writeN (initLB 4) samples7 1) ≠ (1 : ℚ) := by
  norm_num [GetLength, writeN, Write, initLB, blankLB, Init, Reset, upd, samples7]

/-- Claim C3 (amended): for N < C, writing N samples after Init and then
calling plain Read() N times returns the samples in write order, but
GetLength() is N + 1, not N. -/
theorem claim3_amended (C N : ℕ) (hN : N < C) (s : ℕ → ℚ) :
    (∀ k, k < N → readOut (writeN (initLB C) s N) k = s k) ∧
    GetLength (writeN (initLB C) s N) = (N : ℚ) + 1 := by
  obtain ⟨hwp, hrp, hfr, hlen, hline⟩ := writeN_init_spec C s N hN
  constructor
  · intro k hk
    obtain ⟨hrk, hlk, hlik⟩ := readState_spec C (writeN (initLB C) s N) N hrp hlen k (by omega)
    show (readState (writeN (initLB C) s N) k).line
        ((readState (writeN (initLB C) s N) k).read_ptr %
          (readState (writeN (initLB C) s N) k).length) = s k
    rw [hrk, hlk, hlik, hlen, Nat.mod_eq_of_lt (by omega)]
    exact hline k hk
  · show ((writeN (initLB C) s N).length : ℚ) + (writeN (initLB C) s N).frac = (N : ℚ) + 1
    rw [hlen, hfr]
    push_cast
    ring

/-- Witness for claim C3 (amended): capacity 2, one write of sample 10;
the single read returns 10 and GetLength is 2. -/
theorem claim3_witness :
    (1 < 2) ∧
    ((∀ k, k < 1 → readOut (writeN (initLB 2) samples7 1) k = samples7 k) ∧
      GetLength (writeN (initLB 2) samples7 1) = (1 : ℚ) + 1) :=
  ⟨by decide, claim3_amended 2 1 (by decide) samples7⟩

lemma readOnceState_spec (C : ℕ) (st : LoopBuffer C) (h0 : st.read_ptr = 0)
    (hL : 1 ≤ st.length) (h32 : st.length ≤ 2 ^ 32) (n : ℕ) :
    (readOnceState st n).read_ptr = min n (st.length - 1) ∧
    (readOnceState st n).length = st.length ∧
    (readOnceState st n).line = st.line := by
  have hu : usize ((st.length : ℤ) - 1) = st.length - 1 := by
    unfold usize wordMod
    omega
  induction n with
  | zero =>
    refine ⟨?_, rfl, rfl⟩
    show st.read_ptr = min 0 (st.length - 1)
    rw [h0]
    omega
  | succ n ih =>
    obtain ⟨h1, h2, h3⟩ := ih
    refine ⟨?_, h2, h3⟩
    show (if (readOnceState st n).read_ptr < usize (((readOnceState st n).length : ℤ) - 1)
        then (readOnceState st n).read_ptr + 1 else (readOnceState st n).read_ptr) =
      min (n + 1) (st.length - 1)
    rw [h1, h2, hu]
    split <;> omega

/-- Claim C1 (counterexample): on bufA (length 2, samples 5 and 7, cursor
starting at 0), after two ReadOnce calls the cursor sits at length - 1,
yet the third ReadOnce call returns 7 (the last sample), not 0. -/
theorem claim1_counterexample :
    (readOnceState bufA 2).read_ptr = bufA.length - 1 ∧
    readOnceOut bufA 2 = 7 ∧ (7 : ℚ) ≠ 0 := by
  refine ⟨?_, ?_, by norm_num⟩
  · show (readOnceState bufA 2).read_ptr = 1
    have h := readOnceState_spec 2 bufA rfl (by norm_num [bufA]) (by norm_num [bufA]) 2
    rw [h.1]
    norm_num [bufA]
  · have h := readOnceState_spec 2 bufA rfl (by norm_num [bufA]) (by norm_num [bufA]) 2
    show (if (readOnceState bufA 2).read_ptr < (readOnceState bufA 2).length
        then (readOnceState bufA 2).line
          ((readOnceState bufA 2).read_ptr % (readOnceState bufA 2).length)
        else 0) = 7
    rw [h.1, h.2.1, h.2.2]
    norm_num [bufA]

/-- Claim C1 (amended): with the cursor starting at 0 and 1 ≤ length
(≤ 2^32, the size_t range), the first length ReadOnce() calls return the
first length stored samples in order; the cursor advances to length - 1 and
then stays there (it never wraps back to 0); but every call from the
length-th on returns storage[length - 1] again — ReadOnce returns 0 only
when the cursor lies at or beyond length, which never happens from a start
at 0. -/
theorem claim1_amended (C : ℕ) (st : LoopBuffer C) (h0 : st.read_ptr = 0)
    (hL : 1 ≤ st.length) (h32 : st.length ≤ 2 ^ 32) (n : ℕ) :
    (readOnceState st n).read_ptr = min n (st.length - 1) ∧
    (n < st.length → readOnceOut st n = st.line n) ∧
    (st.length ≤ n → readOnceOut st n = st.line (st.length - 1)) := by
  obtain ⟨h1, h2, h3⟩ := readOnceState_spec C st h0 hL h32 n
  have hout : readOnceOut st n = st.line (min n (st.length - 1)) := by
    show (if (readOnceState st n).read_ptr < (readOnceState st n).length
        then (readOnceState st n).line
          ((readOnceState st n).read_ptr % (readOnceState st n).length)
        else 0) = st.line (min n (st.length - 1))
    rw [h1, h2, h3, if_pos (by omega), Nat.mod_eq_of_lt (by omega)]
  refine ⟨h1, ?_, ?_⟩
  · intro h
    rw [hout]
    congr 1
    omega
  · intro h
    rw [hout]
    congr 1
    omega

/-- Witness for claim C1 (amended) on bufA at n = 1: the second call
returns sample 7 and the cursor reaches 1 = length - 1. -/
theorem claim1_witness :
    (bufA.read_ptr = 0 ∧ 1 ≤ bufA.length ∧ bufA.length ≤ 2 ^ 32) ∧
    ((readOnceState bufA 1).read_ptr = min 1 (bufA.length - 1) ∧
      (1 < bufA.length → readOnceOut bufA 1 = bufA.line 1) ∧
      (bufA.length ≤ 1 → readOnceOut bufA 1 = bufA.line (bufA.length - 1))) :=
  ⟨⟨rfl, by norm_num [bufA], by norm_num [bufA]⟩,
    claim1_amended 2 bufA rfl (by norm_num [bufA]) (by norm_num [bufA]) 1⟩

lemma readState_const (C : ℕ) (st : LoopBuffer C) (k : ℕ) :
    (readState st k).frac = st.frac ∧ (readState st k).length = st.length ∧
    (readState st k).line = st.line := by
  induction k with
  | zero => exact ⟨rfl, rfl, rfl⟩
  | succ k ih => exact ⟨ih.1, ih.2.1, ih.2.2⟩

lemma readState_rp_lt (C : ℕ) (st : LoopBuffer C) (hL : 1 ≤ st.length) (k : ℕ) :
    (readState st (k + 1)).read_ptr < st.length := by
  have hlen : (readState st k).length = st.length := (readState_const C st k).2.1
  show ((readState st k).read_ptr + 1) % (readState st k).length < st.length
  rw [hlen]
  exact Nat.mod_lt _ (by omega)

lemma readSpeed_one_step (C : ℕ) (st : LoopBuffer C) (hfr : st.frac = 0)
    (hrp : st.read_ptr + 1 < 2 ^ 32) :
    (ReadSpeed st 1).1 = (Read st).1 ∧ (ReadSpeed st 1).2 = (Read (Read st).1).2 := by
  have hfl : ⌊(1 : ℚ) + st.frac⌋ = 1 := by rw [hfr]; norm_num
  have htr : truncQ ((1 : ℚ) + st.frac) = 1 := by rw [hfr]; unfold truncQ; norm_num
  have hus : usize ((st.read_ptr : ℤ) + 1) = st.read_ptr + 1 := by
    unfold usize wordMod
    omega
  obtain ⟨f, w, r, l, ln⟩ := st
  dsimp only at hfr hfl htr hus
  subst hfr
  simp only [ReadSpeed, Read, hfl, htr, hus, LoopBuffer.mk.injEq]
  norm_num

lemma readSpeed_one_state (C : ℕ) (st : LoopBuffer C) (hfr : st.frac = 0)
    (hL : 1 ≤ st.length) (hL32 : st.length < 2 ^ 32) (hrp : st.read_ptr + 1 < 2 ^ 32)
    (k : ℕ) : readSpeedState st 1 k = readState st k := by
  induction k with
  | zero => rfl
  | succ k ih =>
    show (ReadSpeed (readSpeedState st 1 k) 1).1 = (Read (readState st k)).1
    rw [ih]
    refine (readSpeed_one_step C (readState st k) ?_ ?_).1
    · rw [(readState_const C st k).1, hfr]
    · rcases k with _ | j
      · exact hrp
      · have := readState_rp_lt C st hL j
        omega

/-- Claim C4 (counterexample): on bufB (storage [1, 2], length 2, frac 0,
cursor 0), the first ReadSpeed(1.0) call returns 2 while the first plain
Read() call returns 1: at speed 1 the two read policies do not produce
identical output streams. -/
theorem claim4_counterexample :
    readSpeedOut bufB 1 0 = 2 ∧ readOut bufB 0 = 1 ∧ (2 : ℚ) ≠ 1 := by
  have h := readSpeed_one_step 2 bufB rfl (by norm_num [bufB])
  refine ⟨?_, ?_, by norm_num⟩
  · show (ReadSpeed bufB 1).2 = 2
    rw [h.2]
    show (Read bufB).1.line ((Read bufB).1.read_ptr % (Read bufB).1.length) = 2
    norm_num [Read, bufB]
  · show bufB.line (bufB.read_ptr % bufB.length) = 1
    norm_num [bufB]

/-- Claim C4 (amended): from a state with frac = 0 (and cursor and length in
the size_t range), repeated ReadSpeed(1.0) traverses exactly the same state
sequence as repeated plain Read(), but returns the sample at the
post-advance cursor where Read() returns the pre-advance one: the k-th
ReadSpeed(1.0) output equals the (k+1)-th Read() output, so the two streams
coincide shifted by one sample rather than being identical. -/
theorem claim4_amended (C : ℕ) (st : LoopBuffer C) (hfr : st.frac = 0)
    (hL : 1 ≤ st.length) (hL32 : st.length < 2 ^ 32) (hrp : st.read_ptr + 1 < 2 ^ 32)
    (k : ℕ) :
    readSpeedState st 1 k = readState st k ∧ readSpeedOut st 1 k = readOut st (k + 1) := by
  refine ⟨readSpeed_one_state C st hfr hL hL32 hrp k, ?_⟩
  show (ReadSpeed (readSpeedState st 1 k) 1).2 = (Read (readState st (k + 1))).2
  rw [readSpeed_one_state C st hfr hL hL32 hrp k]
  refine (readSpeed_one_step C (readState st k) ?_ ?_).2
  · rw [(readState_const C st k).1, hfr]
  · rcases k with _ | j
    · exact hrp
    · have := readState_rp_lt C st hL j
      omega

/-- Witness for claim C4 (amended) on bufB at k = 1. -/
theorem claim4_witness :
    (bufB.frac = 0 ∧ 1 ≤ bufB.length ∧ bufB.length < 2 ^ 32 ∧ bufB.read_ptr + 1 < 2 ^ 32) ∧
    (readSpeedState bufB 1 1 = readState bufB 1 ∧ readSpeedOut bufB 1 1 = readOut bufB 2) :=
  ⟨⟨rfl, by norm_num [bufB], by norm_num [bufB], by norm_num [bufB]⟩,
    claim4_amended 2 bufB rfl (by norm_num [bufB]) (by norm_num [bufB])
      (by norm_num [bufB]) 1⟩

/-- Claim C5 (counterexample): on bufS (capacity 4, length 3), the call
Splice(1, 10, 0) passes the precondition check (2*1 < 3, 10 ≥ 0, 0 < 3),
yet accesses index startPoint + 0 = 10, which lies outside [0, 4): the
guard does not bound startPoint from above, so a passing check does not
keep all accesses inside the buffer. -/
theorem claim5_counterexample :
    spliceGuard bufS.length 1 10 0 ∧
    (10 : ℤ) ∈ spliceIdxs bufS.length 1 10 0 ∧
    ¬ ((10 : ℤ) < (4 : ℤ)) ∧
    (Splice bufS 1 10 0).isNone = true := by
  refine ⟨by decide, by decide, by decide, by decide⟩

/-- Claim C5 (amended): the precondition check alone does not confine the
accesses; with the additional bounds startPoint + fadeLength ≤ length,
0 ≤ endPoint, fadeLength ≤ endPoint + 1 and length ≤ C, every index the
guarded Splice reads or writes (ramp indices startPoint + i and
endPoint - i for i < fadeLength, and the zeroed tail endPoint..length-1)
lies inside [0, C), and the call completes without out-of-bounds access. -/
theorem claim5_amended (C : ℕ) (st : LoopBuffer C) (fadeLength startPoint endPoint : ℤ)
    (hg : spliceGuard st.length fadeLength startPoint endPoint)
    (hsp : startPoint + fadeLength ≤ (st.length : ℤ))
    (hep0 : 0 ≤ endPoint) (hef : fadeLength ≤ endPoint + 1)
    (hLC : st.length ≤ C) :
    (∀ z ∈ spliceIdxs st.length fadeLength startPoint endPoint, 0 ≤ z ∧ z < (C : ℤ)) ∧
    (Splice st fadeLength startPoint endPoint).isSome = true := by
  obtain ⟨hg1, hg2, hg3⟩ := hg
  have hall : ∀ z ∈ spliceIdxs st.length fadeLength startPoint endPoint,
      0 ≤ z ∧ z < (C : ℤ) := by
    intro z hz
    unfold spliceIdxs at hz
    rcases List.mem_append.mp hz with hz12 | hzc
    · rcases List.mem_append.mp hz12 with hza | hzb
      · obtain ⟨i, hi, rfl⟩ := List.mem_map.mp hza
        rw [List.mem_range] at hi
        constructor <;> omega
      · obtain ⟨i, hi, rfl⟩ := List.mem_map.mp hzb
        rw [List.mem_range] at hi
        constructor <;> omega
    · obtain ⟨i, hi, rfl⟩ := List.mem_map.mp hzc
      rw [List.mem_range] at hi
      constructor <;> omega
  have hb : (spliceIdxs st.length fadeLength startPoint endPoint).all
      (fun z => decide (0 ≤ z ∧ z < (C : ℤ))) = true := by
    rw [List.all_eq_true]
    intro z hz
    rw [decide_eq_true_eq]
    exact hall z hz
  refine ⟨hall, ?_⟩
  unfold Splice
  rw [if_pos ⟨hg1, hg2, hg3⟩, if_pos hb]
  rfl

/-- Witness for claim C5 (amended): bufW (capacity 8, length 5) with
Splice(1, 0, 3). -/
theorem claim5_witness :
    (spliceGuard bufW.length 1 0 3 ∧ (0 : ℤ) + 1 ≤ (bufW.length : ℤ) ∧
      (0 : ℤ) ≤ 3 ∧ (1 : ℤ) ≤ 3 + 1 ∧ bufW.length ≤ 8) ∧
    ((∀ z ∈ spliceIdxs bufW.length 1 0 3, 0 ≤ z ∧ z < ((8 : ℕ) : ℤ)) ∧
      (Splice bufW 1 0 3).isSome = true) :=
  ⟨⟨by decide, by decide, by decide, by decide, by decide⟩,
    claim5_amended 8 bufW 1 0 3 (by decide) (by decide) (by decide) (by decide) (by decide)⟩

/-- Claim C6 (code evaluation at the failing input): on bufV (length 3,
cursor 0, frac 0), ReadSpeed(-1.0) leaves the read cursor at
((2^32 - 1) mod 3) = 0, whereas the claimed arithmetic
(read_cursor + floor(speed + frac)) mod length = (0 - 1) mod 3 gives
length - 1 = 2: the int step is converted to the unsigned size_t (wrapping
modulo 2^32) and the source's negative-wrap branch (read_ptr_ < 0) can
never fire on an unsigned type. -/
theorem claim6_readspeed_negative_wrap :
    (ReadSpeed bufV (-1)).1.read_ptr = 0 ∧
    usize ((bufV.read_ptr : ℤ) + ⌊(-1 : ℚ) + bufV.frac⌋) = 2 ^ 32 - 1 ∧
    ((bufV.read_ptr : ℤ) + ⌊(-1 : ℚ) + bufV.frac⌋) % (bufV.length : ℤ) = 2 ∧
    bufV.length - 1 = 2 := by
  have hfl : ⌊(-1 : ℚ) + bufV.frac⌋ = -1 := by
    show ⌊(-1 : ℚ) + (0 : ℚ)⌋ = -1
    norm_num
  refine ⟨?_, ?_, ?_, by decide⟩
  · show usize ((bufV.read_ptr : ℤ) + ⌊(-1 : ℚ) + bufV.frac⌋) % bufV.length = 0
    rw [hfl]
    decide
  · rw [hfl]
    decide
  · rw [hfl]
    decide

/-- Claim C10 (counterexample): Setlength(-5/2) on an Init-ed buffer of
capacity 4 sets frac_ to -1/2 (the remainder after truncation toward zero),
but the claimed fractional remainder x - floor(x) is +1/2: the fractional
overload truncates, it does not floor. -/
theorem claim10_counterexample :
    (Setlength (initLB 4) (-5/2)).frac = -(1/2) ∧
    (-5/2 : ℚ) - ((⌊(-5/2 : ℚ)⌋ : ℤ) : ℚ) = 1/2 ∧
    (-(1/2) : ℚ) ≠ 1/2 := by
  have h52 : ⌊(5/2 : ℚ)⌋ = 2 := by
    rw [Int.floor_eq_iff]
    norm_num
  have hm52 : ⌊(-5/2 : ℚ)⌋ = -3 := by
    rw [Int.floor_eq_iff]
    norm_num
  have ht : truncQ (-5/2 : ℚ) = -2 := by
    unfold truncQ
    rw [if_neg (by norm_num), show (-(-5/2 : ℚ)) = 5/2 by norm_num, h52]
  refine ⟨?_, ?_, by norm_num⟩
  · show (-5/2 : ℚ) - ((truncQ (-5/2 : ℚ) : ℤ) : ℚ) = -(1/2)
    rw [ht]
    norm_num
  · rw [hm52]
    norm_num

/-- Claim C10 (amended): SetLength(n) sets length = min(n, C) and frac = 0;
Setlength(x) sets frac = x - trunc(x) (truncation toward zero — equal to
x - floor(x) only for x ≥ 0) and sets length to trunc(x) when
0 ≤ trunc(x) < C and to C - 1 otherwise (both integer parts ≥ C and
negative integer parts land on the cap C - 1, a different cap than the
integer overload's C); the range hypotheses express that C and the
truncated value fit the 32-bit int/size_t of the target. -/
theorem claim10_amended (C : ℕ) (st : LoopBuffer C) (n : ℕ) (x : ℚ)
    (hC : 0 < C) (hC31 : C ≤ 2 ^ 31)
    (hx1 : -(2 ^ 31) ≤ truncQ x) (hx2 : truncQ x < 2 ^ 31) :
    ((SetLength st n).length = min n C ∧ (SetLength st n).frac = 0) ∧
    ((Setlength st x).frac = x - ((truncQ x : ℤ) : ℚ) ∧
      (Setlength st x).length =
        if 0 ≤ truncQ x ∧ truncQ x < (C : ℤ) then (truncQ x).toNat else C - 1) := by
  refine ⟨⟨?_, rfl⟩, rfl, ?_⟩
  · show (if n < C then n else C) = min n C
    split <;> omega
  · show (if usize (truncQ x) < C then usize (truncQ x) else C - 1) =
      if 0 ≤ truncQ x ∧ truncQ x < (C : ℤ) then (truncQ x).toNat else C - 1
    unfold usize wordMod
    split_ifs <;> omega

/-- Witness for claim C10 (amended) at capacity 4, n = 7, x = 5/2. -/
theorem claim10_witness :
    (0 < 4 ∧ 4 ≤ 2 ^ 31 ∧ -(2 ^ 31) ≤ truncQ (5/2 : ℚ) ∧ truncQ (5/2 : ℚ) < 2 ^ 31) ∧
    (((SetLength (initLB 4) 7).length = min 7 4 ∧ (SetLength (initLB 4) 7).frac = 0) ∧
      ((Setlength (initLB 4) (5/2 : ℚ)).frac = (5/2 : ℚ) - ((truncQ (5/2 : ℚ) : ℤ) : ℚ) ∧
        (Setlength (initLB 4) (5/2 : ℚ)).length =
          if 0 ≤ truncQ (5/2 : ℚ) ∧ truncQ (5/2 : ℚ) < ((4 : ℕ) : ℤ)
          then (truncQ (5/2 : ℚ)).toNat else 4 - 1)) := by
  have h52 : ⌊(5/2 : ℚ)⌋ = 2 := by
    rw [Int.floor_eq_iff]
    norm_num
  have ht : truncQ (5/2 : ℚ) = 2 := by
    unfold truncQ
    rw [if_pos (by norm_num), h52]
  exact ⟨⟨by decide, by decide, by rw [ht]; decide, by rw [ht]; decide⟩,
    claim10_amended 4 (initLB 4) 7 (5/2) (by decide) (by decide)
      (by rw [ht]; decide) (by rw [ht]; decide)⟩

end DaisyBard
